import Mathlib

/-!
Shallow embedding of the `kitties` pallet (src/pallets/kitties/src/lib.rs).

The pallet stores a double map `Kitties : (AccountId, KittyId) → Option Kitty`
and a counter `NextKittyId`.  A `Kitty` is a 16-byte DNA payload; gender is
derived from the parity of the first byte.  `create` allocates the next id and
inserts a fresh kitty; `breed` looks up two parents owned by the caller,
requires different genders, allocates an id and inserts the bytewise crossover
of the parents' DNA under a random selector.

Bytes are modelled as `Nat` reduced mod 256 wherever 8-bit semantics matter
(the bitwise NOT in `combine_dna`).  The randomness oracle's output (the DNA
of a created kitty, the selector of a breed) is passed in as an argument.
The bounded `KittyId` type is modelled as `Nat` together with an explicit
upper bound `maxId`; `checked_add` fails exactly when the incremented value
would exceed the bound.  Extrinsic dispatch is transactional: an error leaves
the state unchanged, which `dispatch` makes explicit.
-/

set_option maxRecDepth 8000

namespace Kitties

/-- 16-byte genetic payload, one `Nat` per byte position. -/
def Dna : Type := Fin 16 → Nat

instance : DecidableEq Dna :=
  inferInstanceAs (DecidableEq (Fin 16 → Nat))

/-- `pub struct Kitty(pub [u8; 16])`. -/
structure Kitty where
  dna : Dna

instance : DecidableEq Kitty := fun a b =>
  decidable_of_iff (a.dna = b.dna) (by cases a; cases b; simp)

/-- `pub enum KittyGender { Male, Female }`. -/
inductive KittyGender
  | Male
  | Female
deriving DecidableEq

/-- `Kitty::gender`: parity of the first DNA byte; even is Male, odd Female. -/
def Kitty.gender (k : Kitty) : KittyGender :=
  if k.dna 0 % 2 = 0 then KittyGender.Male else KittyGender.Female

/-- `decl_error!`: the pallet's error enum. -/
inductive Error
  | KittiesIdOverflow
  | InvalidKittyId
  | SameGender
deriving DecidableEq

/-- `combine_dna(dna1, dna2, selector) = (!selector & dna1) | (selector & dna2)`
on `u8`; each operand is reduced mod 256 and `!` is the 8-bit complement
`255 ^^^ ·`. -/
def combine_dna (dna1 dna2 selector : Nat) : Nat :=
  ((255 ^^^ (selector % 256)) &&& (dna1 % 256)) ||| ((selector % 256) &&& (dna2 % 256))

/-- The `for i in 0..16` loop of `breed`: bytewise crossover of two payloads. -/
def combineDnaBytes (dna1 dna2 selector : Dna) : Dna :=
  fun i => combine_dna (dna1 i) (dna2 i) (selector i)

/-- Pallet storage: the `Kitties` double map and the `NextKittyId` counter. -/
structure State (A : Type) where
  kitties : A → Nat → Option Kitty
  nextKittyId : Nat

/-- Genesis storage: empty map, counter at the id type's zero. -/
def genesis (A : Type) : State A :=
  { kitties := fun _ _ => none, nextKittyId := 0 }

/-- `get_next_kitty_id`: returns the current counter and stores
`current + 1`; `checked_add` fails with `KittiesIdOverflow` when the
incremented value would exceed the id type's maximum `maxId`, and
`try_mutate` then leaves the counter untouched. -/
def get_next_kitty_id (maxId : Nat) (A : Type) (st : State A) :
    Except Error (Nat × State A) :=
  if st.nextKittyId + 1 ≤ maxId then
    Except.ok (st.nextKittyId, { st with nextKittyId := st.nextKittyId + 1 })
  else
    Except.error Error.KittiesIdOverflow

/-- `Kitties::<T>::insert(owner, id, k)` on the double map. -/
def insertKitty {A : Type} [DecidableEq A] (m : A → Nat → Option Kitty)
    (owner : A) (id : Nat) (k : Kitty) : A → Nat → Option Kitty :=
  fun a i => if a = owner ∧ i = id then some k else m a i

/-- The `create` extrinsic: allocate the next id, then insert a kitty with
the oracle-supplied `dna` under `(sender, current_id)`.  Returns the id the
`KittyCreated` event carries, together with the new state. -/
def create {A : Type} [DecidableEq A] (maxId : Nat) (sender : A) (dna : Dna)
    (st : State A) : Except Error (Nat × State A) :=
  match get_next_kitty_id maxId A st with
  | Except.error e => Except.error e
  | Except.ok (currentId, st') =>
    Except.ok (currentId,
      { st' with kitties := insertKitty st'.kitties sender currentId ⟨dna⟩ })

/-- The `breed` extrinsic: look up both parents under the caller (failing with
`InvalidKittyId`), require different genders (else `SameGender`), allocate an
id, and insert the crossover of the parents' DNA under the oracle-supplied
`selector`.  Returns the id the `KittyBred` event carries plus the new state. -/
def breed {A : Type} [DecidableEq A] (maxId : Nat) (sender : A)
    (kittyId1 kittyId2 : Nat) (selector : Dna) (st : State A) :
    Except Error (Nat × State A) :=
  match st.kitties sender kittyId1 with
  | none => Except.error Error.InvalidKittyId
  | some kitty1 =>
    match st.kitties sender kittyId2 with
    | none => Except.error Error.InvalidKittyId
    | some kitty2 =>
      if kitty1.gender = kitty2.gender then
        Except.error Error.SameGender
      else
        match get_next_kitty_id maxId A st with
        | Except.error e => Except.error e
        | Except.ok (kittyId, st') =>
          let newKitty : Kitty := ⟨combineDnaBytes kitty1.dna kitty2.dna selector⟩
          Except.ok (kittyId,
            { st' with kitties := insertKitty st'.kitties sender kittyId newKitty })

/-- One extrinsic call together with the randomness the oracle supplies it. -/
inductive Op (A : Type)
  | create (sender : A) (dna : Dna)
  | breed (sender : A) (kittyId1 kittyId2 : Nat) (selector : Dna)

/-- Run one extrinsic. -/
def runOp {A : Type} [DecidableEq A] (maxId : Nat) (op : Op A) (st : State A) :
    Except Error (Nat × State A) :=
  match op with
  | Op.create sender dna => create maxId sender dna st
  | Op.breed sender id1 id2 sel => breed maxId sender id1 id2 sel st

/-- Transactional dispatch: a failed extrinsic reverts, leaving storage as it
was; a successful one commits its new state. -/
def dispatch {A : Type} [DecidableEq A] (maxId : Nat) (op : Op A)
    (st : State A) : State A :=
  match runOp maxId op st with
  | Except.error _ => st
  | Except.ok (_, st') => st'

/-- Run a list of extrinsics, all required to succeed; yields the issued ids
in order and the final state. -/
def runOps {A : Type} [DecidableEq A] (maxId : Nat) (ops : List (Op A))
    (st : State A) : Option (List Nat × State A) :=
  match ops with
  | [] => some ([], st)
  | op :: rest =>
    match runOp maxId op st with
    | Except.error _ => none
    | Except.ok (id, st') =>
      match runOps maxId rest st' with
      | none => none
      | some (ids, stf) => some (id :: ids, stf)

/-- The identifiers issued by a fully successful run from genesis. -/
def issuedIds {A : Type} [DecidableEq A] (maxId : Nat) (ops : List (Op A)) :
    Option (List Nat) :=
  (runOps maxId ops (genesis A)).map Prod.fst

/-- States reachable from genesis by successful extrinsics. -/
inductive Reachable {A : Type} [DecidableEq A] (maxId : Nat) : State A → Prop
  | genesis : Reachable maxId (Kitties.genesis A)
  | step (op : Op A) (st : State A) (id : Nat) (st' : State A) :
      Reachable maxId st → runOp maxId op st = Except.ok (id, st') →
      Reachable maxId st'

/-- Characterisation of a successful allocation: it returns the pre-increment
counter and stores the incremented counter, and the increment fits the bound. -/
theorem get_next_kitty_id_ok {A : Type} {maxId : Nat} {st : State A} {id : Nat}
    {st' : State A} (h : get_next_kitty_id maxId A st = Except.ok (id, st')) :
    id = st.nextKittyId ∧ st.nextKittyId + 1 ≤ maxId ∧
      st' = { st with nextKittyId := st.nextKittyId + 1 } := by
  unfold get_next_kitty_id at h
  by_cases hle : st.nextKittyId + 1 ≤ maxId
  · rw [if_pos hle, Except.ok.injEq, Prod.mk.injEq] at h
    exact ⟨h.1.symm, hle, h.2.symm⟩
  · rw [if_neg hle] at h
    cases h

/-- Allocation fails with `KittiesIdOverflow` exactly when the increment would
exceed the bound. -/
theorem get_next_kitty_id_error {A : Type} {maxId : Nat} {st : State A}
    (h : ¬ st.nextKittyId + 1 ≤ maxId) :
    get_next_kitty_id maxId A st = Except.error Error.KittiesIdOverflow := by
  unfold get_next_kitty_id
  rw [if_neg h]

/-- Characterisation of a successful `create`. -/
theorem create_ok {A : Type} [DecidableEq A] {maxId : Nat} {sender : A}
    {dna : Dna} {st : State A} {id : Nat} {st' : State A}
    (h : create maxId sender dna st = Except.ok (id, st')) :
    id = st.nextKittyId ∧ st.nextKittyId + 1 ≤ maxId ∧
      st' = { kitties := insertKitty st.kitties sender st.nextKittyId ⟨dna⟩,
              nextKittyId := st.nextKittyId + 1 } := by
  unfold create at h
  cases hg : get_next_kitty_id maxId A st with
  | error e => rw [hg] at h; cases h
  | ok p =>
    obtain ⟨cid, stm⟩ := p
    rw [hg] at h
    obtain ⟨hid, hle, hst⟩ := get_next_kitty_id_ok hg
    rw [Except.ok.injEq, Prod.mk.injEq] at h
    subst hid hst
    exact ⟨h.1.symm, hle, h.2.symm⟩

/-- Characterisation of a successful `breed`. -/
theorem breed_ok {A : Type} [DecidableEq A] {maxId : Nat} {sender : A}
    {kittyId1 kittyId2 : Nat} {selector : Dna} {st : State A} {id : Nat}
    {st' : State A}
    (h : breed maxId sender kittyId1 kittyId2 selector st = Except.ok (id, st')) :
    ∃ k1 k2, st.kitties sender kittyId1 = some k1 ∧
      st.kitties sender kittyId2 = some k2 ∧ k1.gender ≠ k2.gender ∧
      id = st.nextKittyId ∧ st.nextKittyId + 1 ≤ maxId ∧
      st' = { kitties := insertKitty st.kitties sender st.nextKittyId
                ⟨combineDnaBytes k1.dna k2.dna selector⟩,
              nextKittyId := st.nextKittyId + 1 } := by
  unfold breed at h
  cases h1 : st.kitties sender kittyId1 with
  | none => rw [h1] at h; cases h
  | some k1 =>
    rw [h1] at h
    cases h2 : st.kitties sender kittyId2 with
    | none => rw [h2] at h; cases h
    | some k2 =>
      rw [h2] at h
      dsimp only at h
      by_cases hgen : k1.gender = k2.gender
      · rw [if_pos hgen] at h; cases h
      · rw [if_neg hgen] at h
        cases hg : get_next_kitty_id maxId A st with
        | error e => rw [hg] at h; cases h
        | ok p =>
          obtain ⟨cid, stm⟩ := p
          rw [hg] at h
          obtain ⟨hid, hle, hst⟩ := get_next_kitty_id_ok hg
          rw [Except.ok.injEq, Prod.mk.injEq] at h
          subst hid hst
          exact ⟨k1, k2, rfl, rfl, hgen, h.1.symm, hle, h.2.symm⟩

/-- A successful extrinsic always allocates: it returns the pre-call counter,
bumps the counter by one, and inserts exactly one kitty at the allocated id. -/
theorem runOp_ok {A : Type} [DecidableEq A] {maxId : Nat} {op : Op A}
    {st : State A} {id : Nat} {st' : State A}
    (h : runOp maxId op st = Except.ok (id, st')) :
    ∃ sender k, id = st.nextKittyId ∧ st.nextKittyId + 1 ≤ maxId ∧
      st' = { kitties := insertKitty st.kitties sender st.nextKittyId k,
              nextKittyId := st.nextKittyId + 1 } := by
  cases op with
  | create sender dna =>
    obtain ⟨h1, h2, h3⟩ := create_ok h
    exact ⟨sender, ⟨dna⟩, h1, h2, h3⟩
  | breed sender id1 id2 sel =>
    obtain ⟨k1, k2, _, _, _, h4, h5, h6⟩ := breed_ok h
    exact ⟨sender, _, h4, h5, h6⟩

/-- Masking a byte-sized value with `0xFF` is the identity. -/
theorem and255_of_lt : ∀ a < 256, 255 &&& a = a := by decide

/-- A breed whose two parents exist and share a gender fails with
`SameGender`. -/
theorem breed_same_gender_error {A : Type} [DecidableEq A] (maxId : Nat)
    {sender : A} {idA idB : Nat} (sel : Dna) {st : State A} {k1 k2 : Kitty}
    (h1 : st.kitties sender idA = some k1) (h2 : st.kitties sender idB = some k2)
    (hg : k1.gender = k2.gender) :
    breed maxId sender idA idB sel st = Except.error Error.SameGender := by
  unfold breed
  rw [h1, h2]
  dsimp only
  rw [if_pos hg]

/-- A breed with either parent missing fails with `InvalidKittyId`. -/
theorem breed_invalid_error {A : Type} [DecidableEq A] (maxId : Nat)
    {sender : A} {idA idB : Nat} (sel : Dna) {st : State A}
    (h : st.kitties sender idA = none ∨ st.kitties sender idB = none) :
    breed maxId sender idA idB sel st = Except.error Error.InvalidKittyId := by
  unfold breed
  rcases h with h | h
  · rw [h]
  · cases hA : st.kitties sender idA with
    | none => rfl
    | some k1 =>
      dsimp only
      rw [h]

/-- A failed extrinsic reverts: dispatch leaves the state untouched. -/
theorem dispatch_eq_of_error {A : Type} [DecidableEq A] {maxId : Nat}
    {op : Op A} {st : State A} {e : Error}
    (h : runOp maxId op st = Except.error e) : dispatch maxId op st = st := by
  unfold dispatch
  rw [h]

/-- `runOp` on a breed op is `breed`. -/
theorem runOp_breed_def {A : Type} [DecidableEq A] (maxId : Nat) (sender : A)
    (idA idB : Nat) (sel : Dna) (st : State A) :
    runOp maxId (Op.breed sender idA idB sel) st =
      breed maxId sender idA idB sel st := rfl

/-- `runOp` on a create op is `create`. -/
theorem runOp_create_def {A : Type} [DecidableEq A] (maxId : Nat) (sender : A)
    (dna : Dna) (st : State A) :
    runOp maxId (Op.create sender dna) st = create maxId sender dna st := rfl

/-! Concrete payloads and states used by the witnesses. -/

/-- Payload with even first byte (Male). -/
def dnaEven : Dna := fun _ => 2

/-- Payload with odd first byte (Female). -/
def dnaOdd : Dna := fun _ => 3

/-- All-zero selector payload. -/
def selZero : Dna := fun _ => 0

/-- One kitty (even payload) created for account 0. -/
def stOne : State Nat := dispatch 1000 (Op.create 0 dnaEven) (genesis Nat)

/-- Two kitties of the same gender owned by account 0. -/
def stTwoSame : State Nat := dispatch 1000 (Op.create 0 dnaEven) stOne

/-- Two kitties of different genders owned by account 0. -/
def stTwoDiff : State Nat := dispatch 1000 (Op.create 0 dnaOdd) stOne

/-- Two kitties of different genders with the counter at its maximum 2. -/
def stFull : State Nat :=
  dispatch 2 (Op.create 0 dnaOdd) (dispatch 2 (Op.create 0 dnaEven) (genesis Nat))

/-- C5: for all bytes `a b s`, `combine_dna a b s = (~s & a) | (s & b)` with
`~` the 8-bit complement; an all-zero selector reproduces the first parent
byte and an all-one selector the second. -/
theorem c5_combine_byte (a b s : Nat) (ha : a < 256) (hb : b < 256)
    (hs : s < 256) :
    combine_dna a b s = ((255 ^^^ s) &&& a) ||| (s &&& b) ∧
      combine_dna a b 0 = a ∧ combine_dna a b 255 = b := by
  have h255a : 255 &&& a = a := and255_of_lt a ha
  have h255b : 255 &&& b = b := and255_of_lt b hb
  refine ⟨?_, ?_, ?_⟩
  · unfold combine_dna
    rw [Nat.mod_eq_of_lt ha, Nat.mod_eq_of_lt hb, Nat.mod_eq_of_lt hs]
  · unfold combine_dna
    rw [Nat.mod_eq_of_lt ha, Nat.mod_eq_of_lt hb, Nat.zero_mod, Nat.xor_zero,
      Nat.zero_and, Nat.or_zero, h255a]
  · unfold combine_dna
    rw [Nat.mod_eq_of_lt ha, Nat.mod_eq_of_lt hb,
      Nat.mod_eq_of_lt (by norm_num : (255 : Nat) < 256), Nat.xor_self,
      Nat.zero_and, Nat.zero_or, h255b]

/-- Witness for C5 at the byte triple (5, 9, 240). -/
theorem c5_combine_byte_witness :
    combine_dna 5 9 240 = ((255 ^^^ 240) &&& 5) ||| (240 &&& 9) ∧
      combine_dna 5 9 0 = 5 ∧ combine_dna 5 9 255 = 9 :=
  c5_combine_byte 5 9 240 (by decide) (by decide) (by decide)

/-- C6: gender takes exactly two values, is Male iff the first payload byte is
even and Female iff it is odd, and depends only on the low bit `p 0 &&& 1` of
the first byte. -/
theorem c6_gender (p q : Dna) :
    ((Kitty.mk p).gender = KittyGender.Male ∨
      (Kitty.mk p).gender = KittyGender.Female) ∧
      ((Kitty.mk p).gender = KittyGender.Male ↔ p 0 % 2 = 0) ∧
      ((Kitty.mk p).gender = KittyGender.Female ↔ p 0 % 2 = 1) ∧
      (p 0 &&& 1 = q 0 &&& 1 → (Kitty.mk p).gender = (Kitty.mk q).gender) := by
  simp only [Kitty.gender, Nat.and_one_is_mod]
  by_cases hp : p 0 % 2 = 0
  · by_cases hq : q 0 % 2 = 0
    · simp [hp, hq]
    · have hq1 : q 0 % 2 = 1 := by omega
      simp [hp, hq1]
  · have hp1 : p 0 % 2 = 1 := by omega
    by_cases hq : q 0 % 2 = 0
    · simp [hp1, hq]
    · have hq1 : q 0 % 2 = 1 := by omega
      simp [hp1, hq1]

/-- Witness for C6 at two concrete payloads with even first bytes. -/
theorem c6_gender_witness :
    ((Kitty.mk dnaEven).gender = KittyGender.Male ∨
      (Kitty.mk dnaEven).gender = KittyGender.Female) ∧
      ((Kitty.mk dnaEven).gender = KittyGender.Male ↔ dnaEven 0 % 2 = 0) ∧
      ((Kitty.mk dnaEven).gender = KittyGender.Female ↔ dnaEven 0 % 2 = 1) ∧
      (dnaEven 0 &&& 1 = dnaEven 0 &&& 1 →
        (Kitty.mk dnaEven).gender = (Kitty.mk dnaEven).gender) :=
  c6_gender dnaEven dnaEven

/-- C2: when both parents exist under the caller and share a gender, `breed`
fails with `SameGender` and the dispatched extrinsic changes neither the
counter nor any registry entry. -/
theorem c2_breed_same_gender {A : Type} [DecidableEq A] (maxId : Nat)
    (sender : A) (idA idB : Nat) (sel : Dna) (st : State A) (k1 k2 : Kitty)
    (h1 : st.kitties sender idA = some k1) (h2 : st.kitties sender idB = some k2)
    (hg : k1.gender = k2.gender) :
    breed maxId sender idA idB sel st = Except.error Error.SameGender ∧
      dispatch maxId (Op.breed sender idA idB sel) st = st := by
  have hb := breed_same_gender_error maxId sel h1 h2 hg
  exact ⟨hb, dispatch_eq_of_error ((runOp_breed_def ..).trans hb)⟩

/-- Witness for C2: breeding the two same-gender kitties of `stTwoSame`. -/
theorem c2_breed_same_gender_witness :
    breed 1000 0 0 1 selZero stTwoSame = Except.error Error.SameGender ∧
      dispatch 1000 (Op.breed 0 0 1 selZero) stTwoSame = stTwoSame :=
  c2_breed_same_gender 1000 0 0 1 selZero stTwoSame ⟨dnaEven⟩ ⟨dnaEven⟩
    rfl rfl rfl

/-- C8: when either looked-up parent is absent, `breed` fails with
`InvalidKittyId` and the dispatched extrinsic leaves the state unchanged. -/
theorem c8_breed_missing_parent {A : Type} [DecidableEq A] (maxId : Nat)
    (sender : A) (idA idB : Nat) (sel : Dna) (st : State A)
    (h : st.kitties sender idA = none ∨ st.kitties sender idB = none) :
    breed maxId sender idA idB sel st = Except.error Error.InvalidKittyId ∧
      dispatch maxId (Op.breed sender idA idB sel) st = st := by
  have hb := breed_invalid_error maxId sel h
  exact ⟨hb, dispatch_eq_of_error ((runOp_breed_def ..).trans hb)⟩

/-- Witness for C8: breeding with the absent id 7 in `stTwoDiff`. -/
theorem c8_breed_missing_parent_witness :
    breed 1000 0 0 7 selZero stTwoDiff = Except.error Error.InvalidKittyId ∧
      dispatch 1000 (Op.breed 0 0 7 selZero) stTwoDiff = stTwoDiff :=
  c8_breed_missing_parent 1000 0 0 7 selZero stTwoDiff (Or.inr rfl)

/-- C10: breeding a kitty with itself always fails with `SameGender` (the two
parents are the same record, hence share a gender) and changes no state. -/
theorem c10_breed_self {A : Type} [DecidableEq A] (maxId : Nat) (sender : A)
    (id : Nat) (sel : Dna) (st : State A) (k : Kitty)
    (h : st.kitties sender id = some k) :
    breed maxId sender id id sel st = Except.error Error.SameGender ∧
      dispatch maxId (Op.breed sender id id sel) st = st := by
  have hb := breed_same_gender_error maxId sel h h rfl
  exact ⟨hb, dispatch_eq_of_error ((runOp_breed_def ..).trans hb)⟩

/-- Witness for C10: self-breeding kitty 0 of `stOne`. -/
theorem c10_breed_self_witness :
    breed 1000 0 0 0 selZero stOne = Except.error Error.SameGender ∧
      dispatch 1000 (Op.breed 0 0 0 selZero) stOne = stOne :=
  c10_breed_self 1000 0 0 selZero stOne ⟨dnaEven⟩ rfl

/-- C3: a successful `create` returns the pre-call counter as the new id,
stores exactly the created kitty under `(sender, id)`, advances the counter by
one, and leaves every other registry entry unchanged. -/
theorem c3_create_inserts {A : Type} [DecidableEq A] (maxId : Nat) (sender : A)
    (dna : Dna) (st : State A) (id : Nat) (st' : State A)
    (h : create maxId sender dna st = Except.ok (id, st')) :
    st'.kitties sender id = some (Kitty.mk dna) ∧
      id = st.nextKittyId ∧
      st'.nextKittyId = st.nextKittyId + 1 ∧
      (∀ a i, ¬(a = sender ∧ i = id) → st'.kitties a i = st.kitties a i) := by
  obtain ⟨hid, hle, hst⟩ := create_ok h
  subst hid hst
  refine ⟨?_, rfl, rfl, ?_⟩
  · simp [insertKitty]
  · intro a i hne
    exact if_neg hne

/-- Explicit state after creating one kitty with payload `dnaEven` for
account 0 from genesis. -/
def stOneExp : State Nat :=
  { kitties := insertKitty (fun _ _ => none) 0 0 ⟨dnaEven⟩, nextKittyId := 1 }

/-- Witness for C3: the first create from genesis. -/
theorem c3_create_inserts_witness :
    stOneExp.kitties 0 0 = some (Kitty.mk dnaEven) ∧
      0 = (genesis Nat).nextKittyId ∧
      stOneExp.nextKittyId = (genesis Nat).nextKittyId + 1 ∧
      (∀ a i, ¬(a = 0 ∧ i = 0) → stOneExp.kitties a i = (genesis Nat).kitties a i) :=
  c3_create_inserts 1000 0 dnaEven (genesis Nat) 0 stOneExp rfl

/-- C4: a successful `breed` stores, under `(sender, new id)`, exactly the
bytewise crossover of the two parents' payloads with the call's selector:
byte `i` of the offspring is `combine_dna` of the parents' bytes `i` and the
selector's byte `i`. -/
theorem c4_breed_offspring {A : Type} [DecidableEq A] (maxId : Nat) (sender : A)
    (idA idB : Nat) (sel : Dna) (st : State A) (k1 k2 : Kitty) (id : Nat)
    (st' : State A)
    (h1 : st.kitties sender idA = some k1) (h2 : st.kitties sender idB = some k2)
    (h : breed maxId sender idA idB sel st = Except.ok (id, st')) :
    st'.kitties sender id = some (Kitty.mk (combineDnaBytes k1.dna k2.dna sel)) ∧
      (∀ i : Fin 16, combineDnaBytes k1.dna k2.dna sel i =
        combine_dna (k1.dna i) (k2.dna i) (sel i)) := by
  obtain ⟨k1', k2', h1', h2', hg, hid, hle, hst⟩ := breed_ok h
  rw [h1] at h1'
  rw [h2] at h2'
  cases h1'
  cases h2'
  subst hid hst
  refine ⟨?_, fun i => rfl⟩
  simp [insertKitty]

/-- Explicit state after breeding kitties 0 and 1 of `stTwoDiff` with the
all-zero selector. -/
def stBredExp : State Nat :=
  { kitties := insertKitty stTwoDiff.kitties 0 2
      ⟨combineDnaBytes dnaEven dnaOdd selZero⟩,
    nextKittyId := 3 }

/-- Witness for C4: breeding the two opposite-gender kitties of `stTwoDiff`. -/
theorem c4_breed_offspring_witness :
    stBredExp.kitties 0 2 =
      some (Kitty.mk (combineDnaBytes dnaEven dnaOdd selZero)) ∧
      (∀ i : Fin 16, combineDnaBytes dnaEven dnaOdd selZero i =
        combine_dna (dnaEven i) (dnaOdd i) (selZero i)) :=
  c4_breed_offspring 1000 0 0 1 selZero stTwoDiff ⟨dnaEven⟩ ⟨dnaOdd⟩ 2 stBredExp
    rfl rfl rfl

/-- C7: with the counter at the id type's maximum, allocation fails with
`KittiesIdOverflow`; hence `create`, and any `breed` that passed its lookups
and gender check, fail the same way, and dispatch leaves the state (counter
included) unchanged. -/
theorem c7_counter_overflow {A : Type} [DecidableEq A] (maxId : Nat)
    (st : State A) (sender : A) (dna sel : Dna) (idA idB : Nat) (k1 k2 : Kitty)
    (hmax : st.nextKittyId = maxId)
    (h1 : st.kitties sender idA = some k1) (h2 : st.kitties sender idB = some k2)
    (hg : k1.gender ≠ k2.gender) :
    get_next_kitty_id maxId A st = Except.error Error.KittiesIdOverflow ∧
      create maxId sender dna st = Except.error Error.KittiesIdOverflow ∧
      breed maxId sender idA idB sel st = Except.error Error.KittiesIdOverflow ∧
      dispatch maxId (Op.create sender dna) st = st ∧
      dispatch maxId (Op.breed sender idA idB sel) st = st := by
  have hn : ¬ st.nextKittyId + 1 ≤ maxId := by omega
  have hga := get_next_kitty_id_error hn
  have hc : create maxId sender dna st = Except.error Error.KittiesIdOverflow := by
    unfold create
    rw [hga]
  have hbr : breed maxId sender idA idB sel st =
      Except.error Error.KittiesIdOverflow := by
    unfold breed
    rw [h1, h2]
    dsimp only
    rw [if_neg hg, hga]
  exact ⟨hga, hc, hbr, dispatch_eq_of_error ((runOp_create_def ..).trans hc),
    dispatch_eq_of_error ((runOp_breed_def ..).trans hbr)⟩

/-- Witness for C7: `stFull` has its counter at the maximum 2 and two
opposite-gender kitties. -/
theorem c7_counter_overflow_witness :
    get_next_kitty_id 2 Nat stFull = Except.error Error.KittiesIdOverflow ∧
      create 2 0 selZero stFull = Except.error Error.KittiesIdOverflow ∧
      breed 2 0 0 1 selZero stFull = Except.error Error.KittiesIdOverflow ∧
      dispatch 2 (Op.create 0 selZero) stFull = stFull ∧
      dispatch 2 (Op.breed 0 0 1 selZero) stFull = stFull :=
  c7_counter_overflow 2 stFull 0 selZero selZero 0 1 ⟨dnaEven⟩ ⟨dnaOdd⟩
    rfl rfl rfl (by decide)

/-- A fully successful run issues consecutive ids starting at the initial
counter and advances the counter by the number of operations. -/
theorem runOps_ids {A : Type} [DecidableEq A] (maxId : Nat) :
    ∀ (ops : List (Op A)) (st : State A) (ids : List Nat) (stf : State A),
      runOps maxId ops st = some (ids, stf) →
      ids = List.range' st.nextKittyId ops.length ∧
      stf.nextKittyId = st.nextKittyId + ops.length := by
  intro ops
  induction ops with
  | nil =>
    intro st ids stf h
    unfold runOps at h
    cases h
    exact ⟨rfl, rfl⟩
  | cons op rest ih =>
    intro st ids stf h
    unfold runOps at h
    cases hro : runOp maxId op st with
    | error e => rw [hro] at h; cases h
    | ok p =>
      obtain ⟨id, st'⟩ := p
      rw [hro] at h
      dsimp only at h
      cases hrr : runOps maxId rest st' with
      | none => rw [hrr] at h; cases h
      | some q =>
        obtain ⟨ids', stf'⟩ := q
        rw [hrr] at h
        dsimp only at h
        rw [Option.some.injEq, Prod.mk.injEq] at h
        obtain ⟨h5, h6⟩ := h
        subst h5
        subst h6
        obtain ⟨sender, knew, hid, hle, hst⟩ := runOp_ok hro
        obtain ⟨hids', hct⟩ := ih st' ids' stf' hrr
        have hnext : st'.nextKittyId = st.nextKittyId + 1 := by rw [hst]
        subst hid
        constructor
        · rw [hids', hnext, List.length_cons, List.range'_succ]
        · rw [hct, hnext, List.length_cons]
          omega

/-- C1: every fully successful sequence of N create/breed extrinsics from
genesis issues exactly the ids 0, 1, …, N-1 in order (hence pairwise
distinct), and each successful allocation returns the pre-increment counter
and stores the incremented counter. -/
theorem c1_id_allocation {A : Type} [DecidableEq A] (maxId : Nat)
    (ops : List (Op A)) (ids : List Nat)
    (h : issuedIds maxId ops = some ids) :
    ids = List.range ops.length ∧ ids.Nodup ∧
      (∀ (st : State A) (id : Nat) (st' : State A),
        get_next_kitty_id maxId A st = Except.ok (id, st') →
        id = st.nextKittyId ∧ st'.nextKittyId = st.nextKittyId + 1) := by
  unfold issuedIds at h
  cases hrun : runOps maxId ops (genesis A) with
  | none => rw [hrun] at h; cases h
  | some p =>
    obtain ⟨ids', stf⟩ := p
    rw [hrun] at h
    dsimp only [Option.map] at h
    rw [Option.some.injEq] at h
    subst h
    obtain ⟨hids, hct⟩ := runOps_ids maxId ops (genesis A) ids' stf hrun
    have hzero : (genesis A).nextKittyId = 0 := rfl
    rw [hzero] at hids
    have hrange : ids' = List.range ops.length := by
      rw [hids, List.range_eq_range']
    refine ⟨hrange, ?_, ?_⟩
    · rw [hrange]
      exact List.nodup_range ops.length
    · intro st id st' hgn
      obtain ⟨h1, _, h3⟩ := get_next_kitty_id_ok hgn
      exact ⟨h1, by rw [h3]⟩

/-- Witness for C1: two creates then a breed from genesis issue ids 0, 1, 2. -/
theorem c1_id_allocation_witness :
    ([0, 1, 2] : List Nat) = List.range 3 ∧ ([0, 1, 2] : List Nat).Nodup ∧
      (∀ (st : State Nat) (id : Nat) (st' : State Nat),
        get_next_kitty_id 1000 Nat st = Except.ok (id, st') →
        id = st.nextKittyId ∧ st'.nextKittyId = st.nextKittyId + 1) :=
  c1_id_allocation 1000
    [Op.create 0 dnaEven, Op.create 0 dnaOdd, Op.breed 0 0 1 selZero]
    [0, 1, 2] (by decide)

/-- Every reachable state satisfies the registry invariant: stored ids are
strictly below the counter. -/
theorem inv_of_reachable {A : Type} [DecidableEq A] {maxId : Nat}
    {st : State A} (h : Reachable maxId st) :
    ∀ a i k, st.kitties a i = some k → i < st.nextKittyId := by
  induction h with
  | genesis =>
    intro a i k hk
    cases hk
  | step op st id st' hre hrun ih =>
    obtain ⟨sender, knew, hid, hle, hst⟩ := runOp_ok hrun
    subst hst
    intro a i k hk
    dsimp only at hk ⊢
    unfold insertKitty at hk
    by_cases hc : a = sender ∧ i = st.nextKittyId
    · obtain ⟨-, rfl⟩ := hc
      exact Nat.lt_succ_self _
    · rw [if_neg hc] at hk
      exact Nat.lt_succ_of_lt (ih a i k hk)

/-- C9: in every reachable state, every stored key's id is strictly below the
counter; hence every successful extrinsic inserts at a key absent from every
owner's partition, and every previously stored record survives unchanged. -/
theorem c9_registry_write_once {A : Type} [DecidableEq A] (maxId : Nat)
    (st : State A) (h : Reachable maxId st) :
    (∀ a i k, st.kitties a i = some k → i < st.nextKittyId) ∧
      (∀ (op : Op A) (id : Nat) (st' : State A),
        runOp maxId op st = Except.ok (id, st') →
        (∀ a, st.kitties a id = none) ∧
        (∀ a i k, st.kitties a i = some k → st'.kitties a i = some k)) := by
  have hinv := inv_of_reachable h
  refine ⟨hinv, ?_⟩
  intro op id st' hrun
  obtain ⟨sender, knew, hid, hle, hst⟩ := runOp_ok hrun
  subst hid hst
  constructor
  · intro a
    cases hk : st.kitties a st.nextKittyId with
    | none => rfl
    | some k => exact absurd (hinv a _ k hk) (Nat.lt_irrefl _)
  · intro a i k hk
    dsimp only
    unfold insertKitty
    by_cases hc : a = sender ∧ i = st.nextKittyId
    · exfalso
      obtain ⟨-, rfl⟩ := hc
      exact Nat.lt_irrefl _ (hinv a _ k hk)
    · rw [if_neg hc]
      exact hk

/-- Witness for C9 at the genesis state. -/
theorem c9_registry_write_once_witness :
    (∀ a i k, (genesis Nat).kitties a i = some k → i < (genesis Nat).nextKittyId) ∧
      (∀ (op : Op Nat) (id : Nat) (st' : State Nat),
        runOp 5 op (genesis Nat) = Except.ok (id, st') →
        (∀ a, (genesis Nat).kitties a id = none) ∧
        (∀ a i k, (genesis Nat).kitties a i = some k → st'.kitties a i = some k)) :=
  c9_registry_write_once 5 (genesis Nat) Reachable.genesis

end Kitties
